import Mathlib

/-!
Shallow embedding of `src/main.py` (class `WinCC_AlarmLogging_Exporter`).

The program discovers SQL Server databases whose names contain the literal
substring "_ALG_" and are online, and for each one checks a static list of
target views, exporting each view that exists to
`<output_dir>/<database_name>/<view_name>.csv` (semicolon-delimited, header
line first, rows fetched in batches of 10,000).

Modelling choices, each tied to the source:
* The database engine and odbc driver are external collaborators; their
  behaviour is an explicit environment (`DBEnv` for one database connection,
  `CatalogEnv` for the whole run).  An operation that can raise in Python is
  an `Except`/`Bool` field of the environment.
* The filesystem is a state `FS`: a set of directories and a map from paths
  to file contents.  `os.makedirs(p, exist_ok=True)` marks `p` present
  (parent directories are elided: no claim examines them);
  `open(path, "w")` followed by csv writing replaces the content at `path`.
* A csv file is modelled as its list of writer records (one record per
  `writerow` call); field stringification and quoting of embedded
  delimiters belong to the external serializer (spec section 1 puts csv
  quoting edge cases out of scope) and one record is one output line.
* Python control flow (try / except / finally) is translated branch by
  branch; the comments on each definition cite the lines of `main.py` they
  embed.
-/

/-- Character-list test: does `s` start with `p`?  Used to give meaning to
the SQL pattern `LIKE '%\_ALG\_%' ESCAPE '\'` of `_get_alg_databases`
(main.py lines 68-74): with both underscores escaped the pattern is literal
substring containment. -/
def startsWithL : List Char → List Char → Bool
  | [], _ => true
  | _ :: _, [] => false
  | p :: ps, c :: cs => p == c && startsWithL ps cs

/-- Character-list test: does `s` contain `pat` as a contiguous run? -/
def containsSub (pat : List Char) : List Char → Bool
  | [] => startsWithL pat []
  | c :: cs => startsWithL pat (c :: cs) || containsSub pat cs

/-- The literal marker of the LIKE pattern in `_get_alg_databases`
(main.py line 71): `'%\_ALG\_%' ESCAPE '\'`, i.e. the five characters
`_ALG_` taken literally. -/
def algMarker : String := "_ALG_"

/-- Predicate of the WHERE clause `name LIKE '%\_ALG\_%' ESCAPE '\'`
(main.py line 71): the name contains the literal substring `_ALG_`. -/
def likeAlgName (s : String) : Bool := containsSub algMarker.data s.data

/-- Row of the system catalog `sys.databases` as read by the query in
`_get_alg_databases` (main.py lines 68-74): a database name and its state
(`0` is ONLINE). -/
structure DBRecord where
  name : String
  state : Nat
deriving DecidableEq

/-- Lexicographic comparison of character lists, the ascending alphabetical
order of `ORDER BY name` in `_get_alg_databases` (main.py line 73): compare
character by character; a name that runs out first comes first. -/
def leB : List Char → List Char → Bool
  | [], _ => true
  | _ :: _, [] => false
  | a :: as, b :: bs => if a < b then true else if b < a then false else leB as bs

/-- Alphabetical order on database names, as a relation on strings. -/
def strLeR (a b : String) : Prop := leB a.data b.data = true

instance : DecidableRel strLeR :=
  fun a b => instDecidableEqBool (leB a.data b.data) true

/-- Embedding of `_get_alg_databases` (main.py lines 66-75): the catalog
query `SELECT name FROM sys.databases WHERE name LIKE '%\_ALG\_%'
ESCAPE '\' AND state = 0 ORDER BY name` over catalog rows `dbs`: filter by
the WHERE clause, project the name, sort ascending by name. -/
def get_alg_databases (dbs : List DBRecord) : List String :=
  List.insertionSort strLeR
    ((dbs.filter (fun d => likeAlgName d.name && d.state == 0)).map DBRecord.name)

/-- Batch size of `cursor.fetchmany(10_000)` in `_export_view`
(main.py line 157). -/
def batchSize : Nat := 10000

/-- One `writer.writerow(fields)` record with `delimiter=';'`
(main.py lines 152-153): the fields of one row joined by semicolons. -/
def writeRow (fields : List String) : String := String.intercalate ";" fields

/-- Embedding of the batch loop of `_export_view` (main.py lines 156-160):
`batch = cursor.fetchmany(10_000); if not batch: break;
writer.writerows(batch)`.  The cursor is the list of rows not yet fetched;
the result is the concatenation of all written batches, in fetch order. -/
def fetchLoop (rows : List (List String)) : List (List String) :=
  if h : rows.take batchSize = [] then []
  else rows.take batchSize ++ fetchLoop (rows.drop batchSize)
termination_by rows.length
decreasing_by
  simp only [List.length_drop]
  cases rows with
  | nil => simp at h
  | cons a as => simp [batchSize]; omega

/-- Records written to the csv file by `_export_view` (main.py lines
149-160) for a result with column names `cols` and row list `rows`: the
header record `writer.writerow(columns)` followed by the records of the
batch loop. -/
def exportLines (cols : List String) (rows : List (List String)) : List String :=
  writeRow cols :: (fetchLoop rows).map writeRow

/-- Filesystem state: which directory paths exist and which file paths hold
which records. -/
@[ext]
structure FS where
  dirs : String → Bool
  files : String → Option (List String)

/-- Filesystem with no directories and no files. -/
def emptyFS : FS := { dirs := fun _ => false, files := fun _ => none }

/-- Effect of `os.makedirs(p, exist_ok=True)` (main.py lines 46 and 143):
the directory `p` exists afterwards; creation is idempotent and never an
error thanks to `exist_ok=True`. -/
def makedirs (fs : FS) (p : String) : FS :=
  { fs with dirs := fun q => if q = p then true else fs.dirs q }

/-- Effect of `open(path, "w", ...)` plus the csv writes (main.py lines
151-160): mode `"w"` truncates, so the previous content at `path` is
replaced by the new records. -/
def setFile (fs : FS) (p : String) (content : List String) : FS :=
  { fs with files := fun q => if q = p then some content else fs.files q }

/-- Path separator join, modelling `os.path.join` (main.py lines 142, 145)
on the posix-style model paths used here. -/
def joinPath (a b : String) : String := a ++ "/" ++ b

/-- Exceptions of the program that escape a try block uncaught. -/
inductive PyErr
  /-- a `pyodbc.connect` call raised and nothing caught it
  (the catalog connection, main.py line 56). -/
  | connectError
  /-- `UnboundLocalError` raised by `conn.close()` in the `finally` of
  `_process_database_views` (main.py line 106) when `pyodbc.connect` at
  line 87 raised, so the local `conn` was never bound.  The
  `except Exception` at line 103 has already run; an exception raised in
  the `finally` block propagates to the caller. -/
  | unboundLocalError
deriving DecidableEq

/-- Behaviour of the external database engine and driver for one candidate
database, as seen through the calls `_process_database_views`,
`_check_view_exists` and `_export_view` make. -/
structure DBEnv where
  /-- does `pyodbc.connect` for this database (main.py line 87) succeed? -/
  connectOk : Bool
  /-- result of the `INFORMATION_SCHEMA.VIEWS` query of `_check_view_exists`
  (main.py lines 119-124) for a view name: `.error` if the query raises,
  otherwise whether `fetchone()` found a row. -/
  checkResult : String → Except Unit Bool
  /-- result of `SELECT * FROM [view]` in `_export_view` (main.py lines
  148-149) for a view name: `.error` if the query raises, otherwise the
  column names and the rows (each row already stringified by the csv
  serializer). -/
  queryResult : String → Except Unit (List String × List (List String))

/-- The static target view list `self.target_views` (main.py lines 22-27). -/
def target_views : List String :=
  ["AlgViewENU_ID_OPT", "AlgViewRUS_ID_OPT", "AlgViewDEU_ID_OPT"]

/-- Embedding of `_check_view_exists` (main.py lines 108-124): runs the
information-schema lookup for `view` on the per-database connection;
propagates the collaborator answer (or its exception). -/
def check_view_exists (env : DBEnv) (view : String) : Except Unit Bool :=
  env.checkResult view

/-- Embedding of `_export_view` (main.py lines 126-165).  Creates
`<output_dir>/<db_name>` (line 143), then runs `SELECT * FROM [view]`
(line 148); on success writes header plus all batches to
`<output_dir>/<db_name>/<view_name>.csv` (lines 151-160).  The body is
wrapped in `try/except Exception` (lines 140, 164): any exception is
caught and logged here, so a query failure leaves only the created
directory behind and the function always returns normally. -/
def export_view (env : DBEnv) (db_name view_name output_dir : String) (fs : FS) : FS :=
  let db_dir := joinPath output_dir db_name
  let fs1 := makedirs fs db_dir
  match env.queryResult view_name with
  | Except.error _ => fs1
  | Except.ok (cols, rows) =>
      setFile fs1 (joinPath db_dir (view_name ++ ".csv")) (exportLines cols rows)

/-- The `for view_name in self.target_views` loop of
`_process_database_views` (main.py lines 97-101).  A `false` existence
check logs and moves on; a `true` one exports; an exception raised by the
existence check escapes the loop and is caught by the `except Exception`
at line 103, which logs — so the loop stops and the filesystem
accumulated so far is kept. -/
def viewLoop (env : DBEnv) (db_name output_dir : String) :
    List String → FS → FS
  | [], fs => fs
  | v :: rest, fs =>
      match check_view_exists env v with
      | Except.error _ => fs
      | Except.ok true => viewLoop env db_name output_dir rest (export_view env db_name v output_dir fs)
      | Except.ok false => viewLoop env db_name output_dir rest fs

/-- Embedding of `_process_database_views` (main.py lines 77-106).  If
`pyodbc.connect` (line 87) succeeds, the view loop runs; every exception
it lets escape is caught by `except Exception` (line 103) and the
`finally` closes the bound `conn`, so the call returns normally with the
accumulated filesystem.  If `pyodbc.connect` raises, the `except` catches
and logs it, but the `finally` then evaluates `conn.close()` with `conn`
unbound, raising `UnboundLocalError`, which propagates to the caller; the
filesystem is untouched on that path. -/
def process_database_views (env : DBEnv) (db_name output_dir : String) (fs : FS) :
    Except PyErr FS :=
  if env.connectOk then
    Except.ok (viewLoop env db_name output_dir target_views fs)
  else
    Except.error PyErr.unboundLocalError

/-- Behaviour of the external world for one whole run of
`export_alarmlogging_data`. -/
structure CatalogEnv where
  /-- does `pyodbc.connect` to the master database
  (`_connect_to_master`, main.py lines 56-63) succeed? -/
  masterConnectOk : Bool
  /-- rows of `sys.databases` visible to `_get_alg_databases`. -/
  catalog : List DBRecord
  /-- per-database collaborator behaviour, by database name. -/
  perDb : String → DBEnv

/-- The `for db_name in alg_databases` loop of `export_alarmlogging_data`
(main.py lines 48-49).  Each database is processed in order; if
`_process_database_views` raises (its unbound-local cleanup path), the
loop is abandoned there with the filesystem as it stood. -/
def dbLoop (env : CatalogEnv) (output_dir : String) :
    List String → FS → FS × Option PyErr
  | [], fs => (fs, none)
  | d :: ds, fs =>
      match process_database_views (env.perDb d) d output_dir fs with
      | Except.ok fs2 => dbLoop env output_dir ds fs2
      | Except.error e => (fs, some e)

/-- Result of the `try` body of `export_alarmlogging_data` (main.py lines
38-49): final filesystem, outcome, and the value of `self.conn` at the
moment the `finally` runs. -/
structure BodyResult where
  fs : FS
  result : Except PyErr Unit
  conn : Option Unit

/-- The `try` body of `export_alarmlogging_data` (main.py lines 38-49).
`_connect_to_master` either raises (leaving `self.conn = None`) or binds
`self.conn`; then `_get_alg_databases` runs; an empty list prints and
returns; otherwise `os.makedirs(output_dir, exist_ok=True)` and the
database loop. -/
def runBody (env : CatalogEnv) (output_dir : String) (fs : FS) : BodyResult :=
  if env.masterConnectOk then
    let dbs := get_alg_databases env.catalog
    if dbs.isEmpty then
      { fs := fs, result := Except.ok (), conn := some () }
    else
      let fs1 := makedirs fs output_dir
      match dbLoop env output_dir dbs fs1 with
      | (fs2, none) => { fs := fs2, result := Except.ok (), conn := some () }
      | (fs2, some e) => { fs := fs2, result := Except.error e, conn := some () }
  else
    { fs := fs, result := Except.error PyErr.connectError, conn := none }

/-- Embedding of `close` (main.py lines 167-170): `if self.conn:
self.conn.close()`.  Returns whether a real close happened; the guard
makes it a no-op (never an exception) when no connection was
established. -/
def close_conn (conn : Option Unit) : Bool := conn.isSome

/-- Observable outcome of one `export_alarmlogging_data` call. -/
structure RunOutcome where
  fs : FS
  result : Except PyErr Unit
  /-- how many times the `finally` ran `self.close()`. -/
  closeAttempts : Nat
  /-- whether `close` found a connection and closed it. -/
  connClosed : Bool

/-- Embedding of `export_alarmlogging_data` (main.py lines 31-52): the
`try` body wrapped in `finally: self.close()`, which runs exactly once on
every exit of the body, normal or exceptional. -/
def export_alarmlogging_data (env : CatalogEnv) (output_dir : String) (fs : FS) :
    RunOutcome :=
  let b := runBody env output_dir fs
  { fs := b.fs, result := b.result, closeAttempts := 1,
    connClosed := close_conn b.conn }

/-- Concrete per-database environment for the fault-isolation scenario of
the target-view list [A, B, C]: the existence check for the first view
answers true, the one for the second view raises, the one for the third
view answers true, and data queries succeed. -/
def envC1 : DBEnv :=
  { connectOk := true,
    checkResult := fun v =>
      if v = "AlgViewRUS_ID_OPT" then Except.error () else Except.ok true,
    queryResult := fun _ => Except.ok (["MsgNr"], [["1001"]]) }

/-- Concrete run environment with two discovered databases: connecting to
the first raises, the second is healthy and holds the first target view. -/
def envC2 : CatalogEnv :=
  { masterConnectOk := true,
    catalog := [⟨"CC_ALG_A", 0⟩, ⟨"CC_ALG_B", 0⟩],
    perDb := fun d =>
      if d = "CC_ALG_A" then
        { connectOk := false, checkResult := fun _ => Except.ok false,
          queryResult := fun _ => Except.error () }
      else
        { connectOk := true, checkResult := fun _ => Except.ok true,
          queryResult := fun _ => Except.ok (["MsgNr"], [["1001"]]) } }

/-- Concrete per-database environment whose connection attempt raises. -/
def envC3 : DBEnv :=
  { connectOk := false, checkResult := fun _ => Except.ok false,
    queryResult := fun _ => Except.error () }

/-- Concrete per-database environment in which no target view exists. -/
def envC8 : DBEnv :=
  { connectOk := true, checkResult := fun _ => Except.ok false,
    queryResult := fun _ => Except.error () }

/-- Concrete run environment whose catalog holds no database with `_ALG_`
in its name. -/
def envC10 : CatalogEnv :=
  { masterConnectOk := true,
    catalog := [⟨"WinCC_Config", 0⟩],
    perDb := fun _ =>
      { connectOk := true, checkResult := fun _ => Except.ok false,
        queryResult := fun _ => Except.error () } }

/-! ### Helper lemmas about the embedded operations -/

/-- Characterization of `startsWithL`: `s` starts with `p` exactly when `s`
decomposes as `p` followed by some tail. -/
theorem startsWithL_iff (p s : List Char) :
    startsWithL p s = true ↔ ∃ r, s = p ++ r := by
  induction p generalizing s with
  | nil =>
      simp [startsWithL]
  | cons a ps ih =>
      cases s with
      | nil => simp [startsWithL]
      | cons c cs =>
          simp only [startsWithL, Bool.and_eq_true, beq_iff_eq, ih, List.cons_append,
            List.cons.injEq]
          constructor
          · rintro ⟨rfl, r, rfl⟩
            exact ⟨r, rfl, rfl⟩
          · rintro ⟨r, rfl, rfl⟩
            exact ⟨rfl, r, rfl⟩

/-- Characterization of `containsSub`: `s` contains `pat` as a contiguous
run exactly when `s` decomposes as some head, then `pat`, then some tail.
This is the meaning of the SQL pattern `'%\_ALG\_%' ESCAPE '\'` with
`pat = "_ALG_".data`. -/
theorem containsSub_iff (pat s : List Char) :
    containsSub pat s = true ↔ ∃ l r, s = l ++ pat ++ r := by
  induction s with
  | nil =>
      simp only [containsSub, startsWithL_iff]
      constructor
      · rintro ⟨r, h⟩
        exact ⟨[], r, by simpa using h⟩
      · rintro ⟨l, r, h⟩
        rcases List.append_eq_nil.mp h.symm with ⟨h1, rfl⟩
        rcases List.append_eq_nil.mp h1 with ⟨rfl, rfl⟩
        exact ⟨[], rfl⟩
  | cons c cs ih =>
      simp only [containsSub, Bool.or_eq_true, startsWithL_iff, ih]
      constructor
      · rintro (⟨r, h⟩ | ⟨l, r, h⟩)
        · exact ⟨[], r, by simpa using h⟩
        · exact ⟨c :: l, r, by simp [h]⟩
      · rintro ⟨l, r, h⟩
        cases l with
        | nil =>
            exact Or.inl ⟨r, by simpa using h⟩
        | cons x xs =>
            simp only [List.cons_append, List.cons.injEq] at h
            exact Or.inr ⟨xs, r, h.2⟩

/-- Totality of the alphabetical comparison: of two names, one comes first. -/
theorem leB_total (s t : List Char) : leB s t = true ∨ leB t s = true := by
  induction s generalizing t with
  | nil => exact Or.inl rfl
  | cons a as ih =>
      cases t with
      | nil => exact Or.inr rfl
      | cons b bs =>
          rcases lt_trichotomy a b with hab | hab | hab
          · exact Or.inl (by simp [leB, hab])
          · subst hab
            rcases ih bs with h | h
            · exact Or.inl (by simp [leB, h])
            · exact Or.inr (by simp [leB, h])
          · exact Or.inr (by simp [leB, hab])

/-- Transitivity of the alphabetical comparison. -/
theorem leB_trans (s t u : List Char) (h1 : leB s t = true) (h2 : leB t u = true) :
    leB s u = true := by
  induction s generalizing t u with
  | nil => rfl
  | cons a as ih =>
      cases t with
      | nil => simp [leB] at h1
      | cons b bs =>
          cases u with
          | nil => simp [leB] at h2
          | cons c cs =>
              rcases lt_trichotomy a b with hab | hab | hab
              · rcases lt_trichotomy b c with hbc | hbc | hbc
                · simp [leB, lt_trans hab hbc]
                · subst hbc
                  simp [leB, hab]
                · simp [leB, hbc, lt_asymm hbc] at h2
              · subst hab
                rcases lt_trichotomy a c with hac | hac | hac
                · simp [leB, hac]
                · subst hac
                  simp only [leB, lt_irrefl, if_false] at h1 h2 ⊢
                  exact ih bs cs h1 h2
                · simp [leB, hac, lt_asymm hac] at h2
              · simp [leB, hab, lt_asymm hab] at h1

/-- Characterization of the alphabetical comparison: `leB s t` holds
exactly when `s = t` or `s` comes strictly before `t` in the lexicographic
order `List.Lex (· < ·)` on characters. -/
theorem leB_iff (s t : List Char) :
    leB s t = true ↔ s = t ∨ List.Lex (fun c d : Char => c < d) s t := by
  induction s generalizing t with
  | nil =>
      cases t with
      | nil => simp [leB]
      | cons b bs => simp [leB, List.Lex.nil]
  | cons a as ih =>
      cases t with
      | nil =>
          constructor
          · intro h
            simp [leB] at h
          · rintro (h | h)
            · exact absurd h (by simp)
            · cases h
      | cons b bs =>
          rcases lt_trichotomy a b with hab | hab | hab
          · simp only [leB, hab, if_true]
            constructor
            · intro _
              exact Or.inr (List.Lex.rel hab)
            · intro _
              trivial
          · subst hab
            simp only [leB, lt_irrefl, if_false, ih]
            constructor
            · rintro (rfl | h)
              · exact Or.inl rfl
              · exact Or.inr (List.Lex.cons h)
            · rintro (h | h)
              · rcases List.cons.injEq .. ▸ h with ⟨-, rfl⟩
                exact Or.inl rfl
              · cases h with
                | cons h3 => exact Or.inr h3
                | rel h3 => exact absurd h3 (lt_irrefl a)
          · simp only [leB, hab, lt_asymm hab, if_false, if_true]
            constructor
            · intro h
              exact absurd h (by simp)
            · rintro (h | h)
              · rcases List.cons.injEq .. ▸ h with ⟨rfl, -⟩
                exact absurd hab (lt_irrefl a)
              · cases h with
                | cons h3 => exact absurd hab (lt_irrefl a)
                | rel h3 => exact absurd hab (lt_asymm h3)

/-- The batch loop of `_export_view` returns every fetched row exactly
once, in fetch order: its output is the input row list itself. -/
theorem fetchLoop_eq (rows : List (List String)) : fetchLoop rows = rows := by
  induction rows using fetchLoop.induct with
  | case1 rows h =>
      rw [fetchLoop, dif_pos h]
      rcases List.take_eq_nil_iff.mp h with h1 | h1
      · simp [batchSize] at h1
      · simp [h1]
  | case2 rows h ih =>
      rw [fetchLoop, dif_neg h, ih, List.take_append_drop]

/-- Repeating `os.makedirs` on the same path changes nothing further. -/
theorem makedirs_makedirs (fs : FS) (p : String) :
    makedirs (makedirs fs p) p = makedirs fs p := by
  unfold makedirs
  refine FS.ext ?_ rfl
  funext q
  by_cases h : q = p <;> simp [h]

/-- Rewriting the same file with the same records changes nothing further. -/
theorem setFile_setFile (fs : FS) (p : String) (c : List String) :
    setFile (setFile fs p c) p c = setFile fs p c := by
  unfold setFile
  refine FS.ext rfl ?_
  funext q
  by_cases h : q = p <;> simp [h]

/-- Directory creation and file writing act on disjoint components of the
filesystem state, so they commute. -/
theorem makedirs_setFile (fs : FS) (p : String) (c : List String) (q : String) :
    makedirs (setFile fs p c) q = setFile (makedirs fs q) p c := by
  unfold makedirs setFile
  exact FS.ext rfl rfl

/-- A view loop in which every existence check answers `false` leaves the
filesystem untouched. -/
theorem viewLoop_not_found (env : DBEnv) (db_name output_dir : String)
    (vs : List String) (fs : FS)
    (h : ∀ v ∈ vs, env.checkResult v = Except.ok false) :
    viewLoop env db_name output_dir vs fs = fs := by
  induction vs with
  | nil => rfl
  | cons v rest ih =>
      have hv := h v (List.mem_cons_self v rest)
      rw [viewLoop, check_view_exists, hv]
      exact ih fun u hu => h u (List.mem_cons_of_mem v hu)

/-- A view loop stops at the first view whose existence check raises:
the views after it are never examined. -/
theorem viewLoop_stops_at_error (env : DBEnv) (db_name output_dir : String)
    (v : String) (vs1 vs2 : List String) (fs : FS)
    (h1 : ∀ u ∈ vs1, ∃ b, env.checkResult u = Except.ok b)
    (hv : env.checkResult v = Except.error ()) :
    viewLoop env db_name output_dir (vs1 ++ v :: vs2) fs
      = viewLoop env db_name output_dir vs1 fs := by
  induction vs1 generalizing fs with
  | nil =>
      simp only [List.nil_append, viewLoop, check_view_exists, hv]
  | cons u rest ih =>
      rcases h1 u (List.mem_cons_self u rest) with ⟨b, hb⟩
      have hrest : ∀ w ∈ rest, ∃ b, env.checkResult w = Except.ok b :=
        fun w hw => h1 w (List.mem_cons_of_mem u hw)
      cases b with
      | true =>
          rw [List.cons_append, viewLoop, check_view_exists, hb, viewLoop,
            check_view_exists, hb]
          exact ih _ hrest
      | false =>
          rw [List.cons_append, viewLoop, check_view_exists, hb, viewLoop,
            check_view_exists, hb]
          exact ih _ hrest

/-! ### Claim theorems -/

/-- C4: the Discoverer (`_get_alg_databases`) returns exactly the database
names that contain the literal substring `_ALG_` (underscores literal, via
the ESCAPE clause) and whose state is online (`state = 0`), sorted in
ascending alphabetical order; offline and non-matching databases are
excluded, and when nothing matches the result is the empty list rather
than an error. -/
theorem C4_discoverer_correct (dbs : List DBRecord) :
    (∀ x, x ∈ get_alg_databases dbs ↔
      ∃ d, d ∈ dbs ∧ d.name = x ∧ d.state = 0 ∧
        ∃ l r, x.data = l ++ algMarker.data ++ r)
    ∧ List.Sorted
        (fun a b : String => a = b ∨ List.Lex (fun c d : Char => c < d) a.data b.data)
        (get_alg_databases dbs)
    ∧ ((∀ d ∈ dbs, (likeAlgName d.name && d.state == 0) = false) →
      get_alg_databases dbs = []) := by
  refine ⟨?_, ?_, ?_⟩
  · intro x
    rw [get_alg_databases, (List.perm_insertionSort _ _).mem_iff]
    simp only [List.mem_map, List.mem_filter, Bool.and_eq_true, beq_iff_eq]
    constructor
    · rintro ⟨d, ⟨hd, hlike, hstate⟩, rfl⟩
      exact ⟨d, hd, rfl, hstate, (containsSub_iff _ _).mp hlike⟩
    · rintro ⟨d, hd, rfl, hstate, l, r, hlr⟩
      exact ⟨d, ⟨hd, (containsSub_iff _ _).mpr ⟨l, r, hlr⟩, hstate⟩, rfl⟩
  · have hs := @List.sorted_insertionSort String strLeR _
      ⟨fun a b => leB_total a.data b.data⟩
      ⟨fun a b c => leB_trans a.data b.data c.data⟩
      ((dbs.filter (fun d => likeAlgName d.name && d.state == 0)).map DBRecord.name)
    rw [get_alg_databases]
    refine List.Pairwise.imp ?_ hs
    intro a b hab
    rcases (leB_iff a.data b.data).mp hab with h | h
    · exact Or.inl (String.ext h)
    · exact Or.inr h
  · intro h
    rw [get_alg_databases]
    have hfil : dbs.filter (fun d => likeAlgName d.name && d.state == 0) = [] := by
      rw [List.filter_eq_nil_iff]
      intro a ha
      simp [h a ha]
    rw [hfil]
    rfl

/-- Witness for C4 at concrete catalogs: a matching online database is
listed; an offline database whose name even contains the marker is not. -/
theorem C4_discoverer_correct_witness :
    ("CC_ALG_SVR" ∈ get_alg_databases [⟨"CC_ALG_SVR", 0⟩, ⟨"plainDB", 0⟩])
    ∧ get_alg_databases [⟨"offline_ALG_X", 4⟩] = [] := by
  constructor
  · exact ((C4_discoverer_correct [⟨"CC_ALG_SVR", 0⟩, ⟨"plainDB", 0⟩]).1 "CC_ALG_SVR").mpr
      ⟨⟨"CC_ALG_SVR", 0⟩, List.mem_cons_self _ _, rfl, rfl,
        ⟨"CC".data, "SVR".data, by decide⟩⟩
  · exact (C4_discoverer_correct [⟨"offline_ALG_X", 4⟩]).2.2 (by decide)

/-- C5: for a view whose row count exceeds the batch size of 10,000, the
output file of `_export_view` is the header record followed by one record
per row, in the order the rows were returned; the batch loop writes every
row exactly once and terminates. -/
theorem C5_large_view_export (cols : List String) (rows : List (List String))
    (h : batchSize < rows.length) :
    exportLines cols rows = writeRow cols :: rows.map writeRow
    ∧ (exportLines cols rows).length = 1 + rows.length := by
  constructor
  · rw [exportLines, fetchLoop_eq]
  · rw [exportLines, fetchLoop_eq]
    simp [Nat.add_comm]

/-- Witness for C5 at a concrete 25,000-row view with batch size 10,000. -/
theorem C5_large_view_export_witness :
    batchSize < (List.replicate 25000 ["1001"]).length
    ∧ (exportLines ["MsgNr"] (List.replicate 25000 ["1001"])
        = writeRow ["MsgNr"] :: (List.replicate 25000 ["1001"]).map writeRow
      ∧ (exportLines ["MsgNr"] (List.replicate 25000 ["1001"])).length
        = 1 + (List.replicate 25000 ["1001"]).length) :=
  ⟨by simp only [List.length_replicate, batchSize]; omega,
   C5_large_view_export ["MsgNr"] (List.replicate 25000 ["1001"])
     (by simp only [List.length_replicate, batchSize]; omega)⟩

/-- C6: for a view with zero rows, the output file of `_export_view`
contains exactly one record, the header of column names, and no data
records. -/
theorem C6_empty_view_export (cols : List String) :
    exportLines cols [] = [writeRow cols]
    ∧ (exportLines cols []).length = 1 := by
  constructor
  · rw [exportLines, fetchLoop_eq]
    rfl
  · rw [exportLines, fetchLoop_eq]
    rfl

/-- C7: exporting the same (database, view) pair twice over the same data
produces the same filesystem as exporting it once: `open(path, "w")`
truncates, so the second run overwrites the file from the beginning
instead of appending, and the directory creation is idempotent. -/
theorem C7_export_overwrite_idempotent (env : DBEnv)
    (db_name view_name output_dir : String) (fs : FS) :
    export_view env db_name view_name output_dir
        (export_view env db_name view_name output_dir fs)
      = export_view env db_name view_name output_dir fs := by
  cases hq : env.queryResult view_name with
  | error e =>
      simp only [export_view, hq]
      exact makedirs_makedirs fs _
  | ok pr =>
      obtain ⟨cols, rows⟩ := pr
      simp only [export_view, hq]
      rw [makedirs_setFile, makedirs_makedirs, setFile_setFile]

/-- C8: for a database in which none of the target views exists (every
existence check answers false), `_process_database_views` leaves the
filesystem completely unchanged and returns normally; in particular no
per-database output subdirectory is created, since `os.makedirs` is only
reached inside `_export_view`. -/
theorem C8_no_dir_when_no_views (env : DBEnv) (db_name output_dir : String) (fs : FS)
    (hc : env.connectOk = true)
    (hnone : ∀ v ∈ target_views, env.checkResult v = Except.ok false) :
    process_database_views env db_name output_dir fs = Except.ok fs := by
  have hv := viewLoop_not_found env db_name output_dir target_views fs hnone
  simp [process_database_views, hc, hv]

/-- Witness for C8 at a concrete database where every check answers
false: the empty filesystem stays empty. -/
theorem C8_no_dir_when_no_views_witness :
    envC8.connectOk = true
    ∧ (∀ v ∈ target_views, envC8.checkResult v = Except.ok false)
    ∧ process_database_views envC8 "CC_ALG_A" "out" emptyFS = Except.ok emptyFS :=
  ⟨rfl, fun _ _ => rfl,
   C8_no_dir_when_no_views envC8 "CC_ALG_A" "out" emptyFS rfl (fun _ _ => rfl)⟩

/-- C9: on every termination of `export_alarmlogging_data` — normal
completion, empty discovery, or an exception anywhere in the body — the
`finally` block runs `self.close()` exactly once, and `close` really
closes a connection exactly when the catalog connection had been
established; on the path where `_connect_to_master` itself failed,
`self.conn` is still `None`, so `close` is a no-op and does not raise. -/
theorem C9_catalog_close_exactly_once (env : CatalogEnv) (output_dir : String) (fs : FS) :
    (export_alarmlogging_data env output_dir fs).closeAttempts = 1
    ∧ (export_alarmlogging_data env output_dir fs).connClosed = env.masterConnectOk := by
  cases hm : env.masterConnectOk with
  | false => simp [export_alarmlogging_data, runBody, close_conn, hm]
  | true =>
      cases he : (get_alg_databases env.catalog).isEmpty with
      | true => simp [export_alarmlogging_data, runBody, close_conn, hm, he]
      | false =>
          rcases hl : dbLoop env output_dir (get_alg_databases env.catalog)
              (makedirs fs output_dir) with ⟨fs2, e⟩
          cases e <;>
            simp [export_alarmlogging_data, runBody, close_conn, hm, he, hl]

/-- C10: when the catalog connection succeeds but the Discoverer returns
an empty list, `export_alarmlogging_data` returns right after the message,
before `os.makedirs(output_dir)` and before any per-database work: the
filesystem is left entirely unchanged and the run ends normally. -/
theorem C10_empty_discovery_frame (env : CatalogEnv) (output_dir : String) (fs : FS)
    (hm : env.masterConnectOk = true)
    (hempty : get_alg_databases env.catalog = []) :
    (export_alarmlogging_data env output_dir fs).fs = fs
    ∧ (export_alarmlogging_data env output_dir fs).result = Except.ok () := by
  simp [export_alarmlogging_data, runBody, hm, hempty]

/-- Witness for C10 at a concrete catalog with no matching database. -/
theorem C10_empty_discovery_frame_witness :
    envC10.masterConnectOk = true
    ∧ get_alg_databases envC10.catalog = []
    ∧ (export_alarmlogging_data envC10 "wincc_alarmlogging_export" emptyFS).fs = emptyFS
    ∧ (export_alarmlogging_data envC10 "wincc_alarmlogging_export" emptyFS).result
        = Except.ok () :=
  ⟨rfl, by decide,
   (C10_empty_discovery_frame envC10 "wincc_alarmlogging_export" emptyFS rfl (by decide)).1,
   (C10_empty_discovery_frame envC10 "wincc_alarmlogging_export" emptyFS rfl (by decide)).2⟩

/-- C1, counterexample to the claim as stated: with target views
[A, B, C] = [ENU, RUS, DEU], the check for A answering true, the check
for B raising, and the check for C answering true (C is present and its
data query would succeed), `_process_database_views` never exports C: the
exception from the check of B escapes the view loop to the per-database
handler, so the file for C is absent from the final filesystem (while A
was exported before the exception). -/
theorem C1_counterexample :
    envC1.checkResult "AlgViewENU_ID_OPT" = Except.ok true
    ∧ envC1.checkResult "AlgViewRUS_ID_OPT" = Except.error ()
    ∧ envC1.checkResult "AlgViewDEU_ID_OPT" = Except.ok true
    ∧ Except.map
        (fun fs => (fs.files "out/CC_ALG_1/AlgViewDEU_ID_OPT.csv",
                    fs.files "out/CC_ALG_1/AlgViewENU_ID_OPT.csv"))
        (process_database_views envC1 "CC_ALG_1" "out" emptyFS)
      = Except.ok (none, some (exportLines ["MsgNr"] [["1001"]])) := by
  refine ⟨rfl, rfl, rfl, ?_⟩
  rfl

/-- C1 as amended: when the existence check for the second target view
raises, the exception is caught at the database level — the call returns
normally, so later databases are unaffected — but the views after the
raising one are NOT attempted: the run behaves as if the target list
stopped before the raising view.  Only exceptions inside `_export_view`
are contained per view. -/
theorem C1_amended_check_error_stops_view_loop (env : DBEnv)
    (db_name output_dir : String) (fs : FS)
    (hc : env.connectOk = true)
    (hENU : ∃ b, env.checkResult "AlgViewENU_ID_OPT" = Except.ok b)
    (hRUS : env.checkResult "AlgViewRUS_ID_OPT" = Except.error ()) :
    process_database_views env db_name output_dir fs
      = Except.ok (viewLoop env db_name output_dir ["AlgViewENU_ID_OPT"] fs) := by
  have h1 : ∀ u ∈ ["AlgViewENU_ID_OPT"], ∃ b, env.checkResult u = Except.ok b := by
    intro u hu
    rw [List.mem_singleton.mp hu]
    exact hENU
  have hsplit : target_views
      = ["AlgViewENU_ID_OPT"] ++ "AlgViewRUS_ID_OPT" :: ["AlgViewDEU_ID_OPT"] := rfl
  have hstop := viewLoop_stops_at_error env db_name output_dir "AlgViewRUS_ID_OPT"
    ["AlgViewENU_ID_OPT"] ["AlgViewDEU_ID_OPT"] fs h1 hRUS
  simp only [List.cons_append, List.nil_append] at hstop
  simp [process_database_views, hc, hsplit, hstop]

/-- Witness for the amended C1 at the concrete environment of the
counterexample. -/
theorem C1_amended_witness :
    envC1.connectOk = true
    ∧ (∃ b, envC1.checkResult "AlgViewENU_ID_OPT" = Except.ok b)
    ∧ envC1.checkResult "AlgViewRUS_ID_OPT" = Except.error ()
    ∧ process_database_views envC1 "CC_ALG_1" "out" emptyFS
        = Except.ok (viewLoop envC1 "CC_ALG_1" "out" ["AlgViewENU_ID_OPT"] emptyFS) :=
  ⟨rfl, ⟨true, rfl⟩, rfl,
   C1_amended_check_error_stops_view_loop envC1 "CC_ALG_1" "out" emptyFS
     rfl ⟨true, rfl⟩ rfl⟩

/-- C2, evaluation at the failing input: with two discovered databases
where connecting to the first raises, the run does NOT continue to the
second database.  The `except` clause of `_process_database_views` does
catch and log the connection error, but its `finally` then evaluates
`conn.close()` with the local `conn` never bound, raising
`UnboundLocalError`, which propagates through
`export_alarmlogging_data` and aborts the run: the healthy second
database is never exported. -/
theorem C2_run_aborts_on_db_connect_failure :
    (export_alarmlogging_data envC2 "out" emptyFS).result
        = Except.error PyErr.unboundLocalError
    ∧ (export_alarmlogging_data envC2 "out" emptyFS).fs.files
        "out/CC_ALG_B/AlgViewENU_ID_OPT.csv" = none := by
  constructor
  · rfl
  · rfl

/-- C3, evaluation at the failing input: on the path where opening the
per-database connection itself fails, the cleanup step of
`_process_database_views` raises (`conn.close()` in the `finally` with
`conn` unbound), contradicting the claim that the release step never
raises and that the connection is released on every exit path. -/
theorem C3_cleanup_raises_on_connect_failure :
    process_database_views envC3 "CC_ALG_A" "out" emptyFS
      = Except.error PyErr.unboundLocalError := rfl
